import Mathlib

/-!
Verification development for the executor-service proxy of the promptflow
repository (`promptflow/batch/_base_executor_proxy.py`) and the
tool-preloading module (`promptflow/executor/_preloaded_resolved_tools.py`).

The Python code is shallowly embedded: network effects are supplied by an
explicit environment (a trace of health-probe outcomes and the response of
the Execution / Aggregation POST), wall-clock time is a natural number of
micro-units with `timedelta.seconds` modelled as truncating division by
`timeUnit`, JSON-decoded Python values are the inductive `JsonValue`, and a
raised Python exception is an `Except.error` / `.exc` outcome.
-/

/-- A JSON-decoded Python value (`response.json()` result): `null`, booleans,
numbers, strings, lists, and dicts as association lists. -/
inductive JsonValue where
  | null : JsonValue
  | bool : Bool → JsonValue
  | num : Int → JsonValue
  | str : String → JsonValue
  | arr : List JsonValue → JsonValue
  | obj : List (String × JsonValue) → JsonValue

/-- Python exceptions that the embedded code can raise or observe. -/
inductive PyExc where
  | executorServiceUnhealthy : String → PyExc
  | jsonDecodeError : PyExc
  | typeError : PyExc
  | keyError : PyExc
  | transportError : String → PyExc
  | attributeError : PyExc
deriving Repr, DecidableEq

/-- `str(e)` for the modelled exceptions (used only to build log text). -/
def pyExcStr : PyExc → String
  | PyExc.executorServiceUnhealthy m => m
  | PyExc.jsonDecodeError => "JSONDecodeError"
  | PyExc.typeError => "TypeError"
  | PyExc.keyError => "KeyError"
  | PyExc.transportError m => m
  | PyExc.attributeError => "AttributeError"

/-- Observable side effects of the proxy: requests issued to the three
routes and logger calls. -/
inductive Event where
  | healthProbe : Event
  | executionRequest : Event
  | aggregationRequest : Event
  | logWarning : String → Event
  | logError : String → Event
deriving Repr, DecidableEq

/-- An `httpx.Response` as the proxy observes it: the status code, the raw
body text, and the result of `response.json()` — `none` means the body is
not valid JSON, so `response.json()` raises `JSONDecodeError`. -/
structure HttpResponse where
  status_code : Nat
  jsonBody : Option JsonValue
  text : String

/-- One health-probe attempt supplied by the environment: the outcome of the
GET to `/health` (a transport exception or a response) and the wall-clock
time the attempt consumes, in micro-units. -/
structure ProbeStep where
  outcome : Except PyExc HttpResponse
  duration : Nat

/-- The environment of one proxy call: the successive health-probe outcomes
and the outcome of the POST to `/Execution` resp. `/Aggregation`. -/
structure Env where
  probes : List ProbeStep
  execResponse : Except PyExc HttpResponse
  aggResponse : Except PyExc HttpResponse

/-- Python membership `key in v` for a JSON-decoded value `v`: key lookup on
dicts, element equality on lists, substring test on strings, and a
`TypeError` on `int` / `bool` / `None`. -/
def pyContains (j : JsonValue) (key : String) : Except PyExc Bool :=
  match j with
  | JsonValue.obj fields => Except.ok (fields.any (fun kv => kv.fst == key))
  | JsonValue.arr xs =>
      Except.ok (xs.any (fun v => match v with
        | JsonValue.str s => s == key
        | _ => false))
  | JsonValue.str s => Except.ok ((s.splitOn key).length != 1)
  | _ => Except.error PyExc.typeError

/-- Python subscripting `v[key]` with a string key: dict lookup ((`KeyError`
when absent) or a `TypeError` on any non-dict value. -/
def pyIndex (j : JsonValue) (key : String) : Except PyExc JsonValue :=
  match j with
  | JsonValue.obj fields =>
      match fields.lookup key with
      | some v => Except.ok v
      | none => Except.error PyExc.keyError
  | _ => Except.error PyExc.typeError

def EXECUTOR_UNHEALTHY_MESSAGE : String :=
  "The executor service is currently not in a healthy state"

/-- `APIBasedExecutorProxy.check_health`: GET the health route; `False` with
a warning log on any non-200 status or any exception, `True` only on 200.
The whole body is wrapped in `except Exception`, so the function always
returns a boolean — it never raises; the returned event list records the
probe and any warning logged. -/
def check_health (probe : Except PyExc HttpResponse) : Bool × List Event :=
  match probe with
  | Except.ok response =>
      if response.status_code != 200 then
        (false, [Event.healthProbe,
          Event.logWarning (EXECUTOR_UNHEALTHY_MESSAGE ++ ". Response: "
            ++ toString response.status_code ++ " - " ++ response.text)])
      else
        (true, [Event.healthProbe])
  | Except.error e =>
      (false, [Event.healthProbe,
        Event.logWarning (EXECUTOR_UNHEALTHY_MESSAGE ++ ". Error: " ++ pyExcStr e)])

/-- Micro-units per whole time unit: `(utcnow() - start_time).seconds`
truncates the elapsed `timedelta` to whole seconds, modelled as division of
the elapsed micro-unit count by `timeUnit`. -/
def timeUnit : Nat := 1000000

def waiting_health_timeout : Nat := 5

/-- Result of the health-wait loop. `traceExhausted` is a model artifact:
the supplied probe trace ended while the Python loop would keep probing. -/
inductive HealthResult where
  | healthy : HealthResult
  | timeout : HealthResult
  | traceExhausted : HealthResult
deriving Repr, DecidableEq

/-- The `while (utcnow() - start_time).seconds < waiting_health_timeout`
loop of `_ensure_executor_health`: before each probe the truncated elapsed
time is compared against the budget; a healthy probe returns immediately,
otherwise the probe's duration is added to the elapsed clock. -/
def healthLoop : List ProbeStep → Nat → HealthResult × List Event
  | probes, elapsed =>
    if elapsed / timeUnit < waiting_health_timeout then
      match probes with
      | [] => (HealthResult.traceExhausted, [])
      | p :: rest =>
        match check_health p.outcome with
        | (true, evs) => (HealthResult.healthy, evs)
        | (false, evs) =>
          match healthLoop rest (elapsed + p.duration) with
          | (r, evs2) => (r, evs ++ evs2)
    else
      (HealthResult.timeout, [])

/-- `APIBasedExecutorProxy._ensure_executor_health`: run the wait loop from
elapsed time zero; on timeout the Python code raises
`ExecutorServiceUnhealthy` (see `exec_line_async`). -/
def _ensure_executor_health (probes : List ProbeStep) : HealthResult × List Event :=
  healthLoop probes 0

/-- `APIBasedExecutorProxy._process_http_response`: status 200 returns
`(response.json(), False)` — an unparsable body raises `JSONDecodeError`
uncaught there; otherwise the status and body are logged at error severity
and the body is parsed inside `try ... except JSONDecodeError`: a parsed
value passing the membership test yields its `error` entry with `True`, a
parsed value failing it is returned whole with `True`, and an unparsable
body falls back to the raw text with `True`. `TypeError` raised by the
membership test or subscripting on non-dict values is not caught. -/
def _process_http_response (response : HttpResponse) :
    Except PyExc (JsonValue × Bool) × List Event :=
  if response.status_code == 200 then
    match response.jsonBody with
    | some j => (Except.ok (j, false), [])
    | none => (Except.error PyExc.jsonDecodeError, [])
  else
    let ev := Event.logError ("Error when calling executor API, status code: "
      ++ toString response.status_code ++ ", error: " ++ response.text)
    match response.jsonBody with
    | some j =>
      (match pyContains j "error" with
       | Except.error e => (Except.error e, [ev])
       | Except.ok true =>
         match pyIndex j "error" with
         | Except.ok sub => (Except.ok (sub, true), [ev])
         | Except.error e => (Except.error e, [ev])
       | Except.ok false => (Except.ok (j, true), [ev]))
    | none => (Except.ok (JsonValue.str response.text, true), [ev])

/-- `FlowRunInfo`, reduced to the fields this proxy reads or writes.
Modelled from the spec: `promptflow.contracts.run_info.FlowRunInfo` is not
among the provided sources; the spec describes RunInfo as execution
metadata holding the start time, the correlation keys (index, run id), the
inputs snapshot and, on failure, an embedded error payload. -/
structure FlowRunInfo where
  start_time : Nat
  inputs : JsonValue
  index : Option Int
  run_id : Option String
  error : Option JsonValue

/-- Modelled from the spec: `FlowRunInfo.create_with_error` is not among the
provided sources; per the spec the proxy synthesizes a RunInfo from the
recorded start timestamp, the inputs, the index, the run id and the
normalized error payload. -/
def FlowRunInfo.create_with_error (start_time : Nat) (inputs : JsonValue)
    (index : Option Int) (run_id : Option String) (err : JsonValue) : FlowRunInfo :=
  { start_time := start_time, inputs := inputs, index := index,
    run_id := run_id, error := some err }

/-- `LineResult`: output mapping, aggregation-inputs mapping, run info and
per-node run infos. -/
structure LineResult where
  output : JsonValue
  aggregation_inputs : JsonValue
  run_info : FlowRunInfo
  node_run_infos : JsonValue

/-- Field access on a JSON object with a default, used by the modelled
deserializers. -/
def jsonGet (j : JsonValue) (key : String) : JsonValue :=
  match j with
  | JsonValue.obj fields => (fields.lookup key).getD JsonValue.null
  | _ => JsonValue.null

/-- Modelled from the spec: the serialized wire form of a `FlowRunInfo`
(the contracts module that fixes the concrete format is not among the
provided sources); each field is embedded injectively. -/
def FlowRunInfo.serialize (ri : FlowRunInfo) : JsonValue :=
  JsonValue.obj
    [("start_time", JsonValue.num (Int.ofNat ri.start_time)),
     ("inputs", ri.inputs),
     ("index", match ri.index with
       | some i => JsonValue.num i
       | none => JsonValue.null),
     ("run_id", match ri.run_id with
       | some s => JsonValue.str s
       | none => JsonValue.null),
     ("error", match ri.error with
       | some e => JsonValue.arr [e]
       | none => JsonValue.null)]

/-- Modelled from the spec: deserialization of a `FlowRunInfo`, inverse of
`FlowRunInfo.serialize` on well-formed payloads. -/
def FlowRunInfo.deserialize (j : JsonValue) : FlowRunInfo :=
  { start_time := match jsonGet j "start_time" with
      | JsonValue.num i => i.toNat
      | _ => 0,
    inputs := jsonGet j "inputs",
    index := match jsonGet j "index" with
      | JsonValue.num i => some i
      | _ => none,
    run_id := match jsonGet j "run_id" with
      | JsonValue.str s => some s
      | _ => none,
    error := match jsonGet j "error" with
      | JsonValue.arr [e] => some e
      | _ => none }

/-- Modelled from the spec: the serialized wire form of a `LineResult`
returned by the executor service on success. -/
def LineResult.serialize (lr : LineResult) : JsonValue :=
  JsonValue.obj
    [("output", lr.output),
     ("aggregation_inputs", lr.aggregation_inputs),
     ("run_info", lr.run_info.serialize),
     ("node_run_infos", lr.node_run_infos)]

/-- Modelled from the spec: `LineResult.deserialize` (the executor result
module is not among the provided sources), inverse of
`LineResult.serialize` on well-formed payloads. -/
def LineResult.deserialize (j : JsonValue) : LineResult :=
  { output := jsonGet j "output",
    aggregation_inputs := jsonGet j "aggregation_inputs",
    run_info := FlowRunInfo.deserialize (jsonGet j "run_info"),
    node_run_infos := jsonGet j "node_run_infos" }

/-- `AggregationResult`. Modelled from the spec: a metrics/outputs mapping
plus run metadata; the defining module is not among the provided sources. -/
structure AggregationResult where
  output : JsonValue
  metrics : JsonValue
  node_run_infos : JsonValue

/-- Modelled from the spec: `AggregationResult.deserialize`, applied by the
proxy to whichever payload the normalizer produced. -/
def AggregationResult.deserialize (j : JsonValue) : AggregationResult :=
  { output := jsonGet j "output",
    metrics := jsonGet j "metrics",
    node_run_infos := jsonGet j "node_run_infos" }

/-- Outcome of a proxy call: a returned value, a raised Python exception,
or the model artifact of an exhausted probe trace. -/
inductive ExecOutcome (α : Type) where
  | ok : α → ExecOutcome α
  | exc : PyExc → ExecOutcome α
  | traceExhausted : ExecOutcome α

/-- `APIBasedExecutorProxy.exec_line_async`: record the start time, ensure
health (raising `ExecutorServiceUnhealthy` on timeout), POST to
`/Execution`, normalize the response, and either synthesize a degraded
`LineResult` around an error payload or deserialize the success payload. -/
def exec_line_async (env : Env) (inputs : JsonValue) (index : Option Int)
    (run_id : Option String) (start_time : Nat) :
    ExecOutcome LineResult × List Event :=
  match _ensure_executor_health env.probes with
  | (HealthResult.traceExhausted, evs) => (ExecOutcome.traceExhausted, evs)
  | (HealthResult.timeout, evs) =>
      (ExecOutcome.exc (PyExc.executorServiceUnhealthy
        (EXECUTOR_UNHEALTHY_MESSAGE ++ ". Please resubmit your flow and try again.")), evs)
  | (HealthResult.healthy, evs) =>
    match env.execResponse with
    | Except.error e => (ExecOutcome.exc e, evs ++ [Event.executionRequest])
    | Except.ok response =>
      match _process_http_response response with
      | (Except.error e, evs2) =>
          (ExecOutcome.exc e, evs ++ [Event.executionRequest] ++ evs2)
      | (Except.ok (payload, has_error), evs2) =>
        if has_error then
          (ExecOutcome.ok
            { output := JsonValue.obj [],
              aggregation_inputs := JsonValue.obj [],
              run_info := FlowRunInfo.create_with_error start_time inputs index run_id payload,
              node_run_infos := JsonValue.obj [] },
           evs ++ [Event.executionRequest] ++ evs2)
        else
          (ExecOutcome.ok (LineResult.deserialize payload),
           evs ++ [Event.executionRequest] ++ evs2)

/-- `APIBasedExecutorProxy.exec_aggregation_async`: ensure health, POST to
`/Aggregation`, normalize, and deserialize whichever payload results —
the error flag of the normalizer is discarded. -/
def exec_aggregation_async (env : Env) (batch_inputs : JsonValue)
    (aggregation_inputs : JsonValue) (run_id : Option String) :
    ExecOutcome AggregationResult × List Event :=
  match _ensure_executor_health env.probes with
  | (HealthResult.traceExhausted, evs) => (ExecOutcome.traceExhausted, evs)
  | (HealthResult.timeout, evs) =>
      (ExecOutcome.exc (PyExc.executorServiceUnhealthy
        (EXECUTOR_UNHEALTHY_MESSAGE ++ ". Please resubmit your flow and try again.")), evs)
  | (HealthResult.healthy, evs) =>
    match env.aggResponse with
    | Except.error e => (ExecOutcome.exc e, evs ++ [Event.aggregationRequest])
    | Except.ok response =>
      match _process_http_response response with
      | (Except.error e, evs2) =>
          (ExecOutcome.exc e, evs ++ [Event.aggregationRequest] ++ evs2)
      | (Except.ok (payload, _), evs2) =>
          (ExecOutcome.ok (AggregationResult.deserialize payload),
           evs ++ [Event.aggregationRequest] ++ evs2)

/-- Environment of the `PreloadeResolvedTools` constructor: the combined
outcome of the collaborator calls made before the `self.tools` assignment.
Modelled from the spec: `Flow.from_yaml`, `_apply_default_node_variants` and
`ToolResolver.resolve_tool_by_node` are external collaborators not among the
provided sources; the spec treats tool preloading as a collaborator that
produces a resolved-tool list from (flow reference, connections, working
directory). -/
structure PreloadEnv where
  resolveOutcome : Except PyExc (List JsonValue)

/-- The class body of `PreloadeResolvedTools` defines `tools` with
`@property` only — no `@tools.setter` is declared. -/
def tools_setter : Option (List JsonValue → Unit) := none

/-- Python attribute assignment `self.tools = value` when the class defines
`tools` as a property: dispatches to the property's setter, and raises
`AttributeError` because none is defined. -/
def pySetAttr_tools (value : List JsonValue) : Except PyExc Unit :=
  match tools_setter with
  | some f => Except.ok (f value)
  | none => Except.error PyExc.attributeError

/-- A successfully constructed `PreloadeResolvedTools` instance. -/
structure PreloadeResolvedTools where
  mk ::

/-- `PreloadeResolvedTools.__init__`: run the flow-loading and
tool-resolution preamble, then assign the resolved list to `self.tools`. -/
def PreloadeResolvedTools.init (env : PreloadEnv) :
    Except PyExc PreloadeResolvedTools :=
  match env.resolveOutcome with
  | Except.error e => Except.error e
  | Except.ok tools =>
    match pySetAttr_tools tools with
    | Except.error e => Except.error e
    | Except.ok _ => Except.ok {}

/-- The `tools` property getter: its body is `return self.tools`, which
re-enters the same property getter; with any finite recursion budget it
never produces a value. -/
def tools_getter : Nat → Option (List JsonValue)
  | 0 => none
  | n + 1 => tools_getter n

/-- The module-level statement
`preloaded_obj = PreloadeResolvedTools(flow_file, connections, working_dir)`
executed at import time. -/
def preloaded_obj (env : PreloadEnv) : Except PyExc PreloadeResolvedTools :=
  PreloadeResolvedTools.init env

/-- Total wall-clock duration of a probe trace, in micro-units. -/
def totalDuration : List ProbeStep → Nat
  | [] => 0
  | p :: rest => p.duration + totalDuration rest

/-- Occurrences of an event in a trace. -/
def countEvent (e : Event) : List Event → Nat
  | [] => 0
  | x :: rest => (if x = e then 1 else 0) + countEvent e rest

lemma countEvent_append (e : Event) (l1 l2 : List Event) :
    countEvent e (l1 ++ l2) = countEvent e l1 + countEvent e l2 := by
  induction l1 with
  | nil => simp [countEvent]
  | cons x rest ih => simp [countEvent, ih]; omega

lemma countEvent_eq_zero_of_forall_ne (e : Event) (l : List Event)
    (h : ∀ x ∈ l, x ≠ e) : countEvent e l = 0 := by
  induction l with
  | nil => rfl
  | cons x rest ih =>
    have hx : x ≠ e := h x (List.mem_cons_self x rest)
    simp [countEvent, hx]
    exact ih (fun y hy => h y (List.mem_cons_of_mem x hy))

/-- A key is found by `lookup` exactly when some entry's key equals it. -/
lemma any_key_eq_lookup_isSome (fields : List (String × JsonValue)) (key : String) :
    fields.any (fun kv => kv.fst == key) = (fields.lookup key).isSome := by
  induction fields with
  | nil => simp
  | cons kv rest ih =>
    obtain ⟨k, v⟩ := kv
    by_cases hk : k = key
    · simp [List.lookup_cons, hk]
    · have h1 : (k == key) = false := by simp [hk]
      have h2 : (key == k) = false := by simp [Ne.symm hk]
      simp [List.lookup_cons, h1, h2, ih]

/-- C5 counterexample: status 201 is a 2xx status, yet `check_health`
reports the service unhealthy — the code compares against exactly 200, not
against the whole 2xx class. -/
theorem c5_counterexample_201_unhealthy :
    200 ≤ 201 ∧ 201 < 300 ∧
    (check_health (Except.ok { status_code := 201, jsonBody := none, text := "Created" })).fst
      = false := by
  refine ⟨by decide, by decide, ?_⟩
  rfl

/-- C5 amended: the health probe reports the service healthy exactly when
the health response status is 200; every other status (including the other
2xx codes) is reported unhealthy. -/
theorem c5_healthy_iff_status_exactly_200 (r : HttpResponse) :
    (check_health (Except.ok r)).fst = (r.status_code == 200) := by
  by_cases h : r.status_code = 200
  · simp [check_health, h]
  · simp [check_health, h]

/-- C7: the health probe never raises — it is a total function of the probe
outcome; it reports healthy exactly on a delivered response with status
200, so every transport-level exception and every non-200 status yields
unhealthy, and whenever it reports unhealthy a warning is logged. -/
theorem c7_probe_total_unhealthy_on_failure (po : Except PyExc HttpResponse) :
    ((check_health po).fst = true ↔ ∃ r, po = Except.ok r ∧ r.status_code = 200)
    ∧ ((check_health po).fst = false →
        ∃ m, Event.logWarning m ∈ (check_health po).snd) := by
  cases po with
  | error e =>
    constructor
    · simp [check_health]
    · intro _
      exact ⟨EXECUTOR_UNHEALTHY_MESSAGE ++ ". Error: " ++ pyExcStr e, by simp [check_health]⟩
  | ok r =>
    by_cases h : r.status_code = 200
    · constructor
      · simp [check_health, h]
      · intro hfalse
        simp [check_health, h] at hfalse
    · constructor
      · simp [check_health, h]
      · intro _
        refine ⟨EXECUTOR_UNHEALTHY_MESSAGE ++ ". Response: "
          ++ toString r.status_code ++ " - " ++ r.text, ?_⟩
        simp [check_health, h]

/-- C7 witness: a simulated connection failure yields unhealthy with a
warning logged, without the probe raising. -/
theorem c7_probe_total_unhealthy_on_failure_witness :
    ∃ m, Event.logWarning m ∈
      (check_health (Except.error (PyExc.transportError "connection refused"))).snd :=
  (c7_probe_total_unhealthy_on_failure
    (Except.error (PyExc.transportError "connection refused"))).2 rfl

/-- C6 counterexample: on a success status (200) with an unparsable body the
normalizer does not return a `(payload, isError)` pair at all — the
`JSONDecodeError` raised by `response.json()` propagates, because the
`try/except` only guards the non-success branch. -/
theorem c6_counterexample_success_unparsable_raises :
    (_process_http_response
      { status_code := 200, jsonBody := none, text := "<html>oops</html>" }).fst
      = Except.error PyExc.jsonDecodeError := by
  rfl

/-- C6 amended: full behavior of the response normalizer. On success status
(200): a parsable body yields `(parsed body, false)` with nothing logged,
an unparsable body raises the JSON decode error. On a non-success status
the status and raw body are logged at error severity, then: a body parsing
to an object with an `error` key yields that entry with `true`; to an
object without one, the whole object with `true`; to a string in which
`error` does not occur, the whole string with `true`; to an array with no
`error` string element, the whole array with `true`; an unparsable body
yields the raw text with `true` (the same fallback on the line and
aggregation paths, which share this normalizer); and a body parsing to a
number, a boolean, `null`, a string containing `error`, or an array
containing the string `error` makes the uncaught membership test or
subscripting raise a `TypeError`. -/
theorem c6_normalizer_case_analysis (r : HttpResponse) :
    (r.status_code = 200 → ∀ j, r.jsonBody = some j →
      _process_http_response r = (Except.ok (j, false), []))
    ∧ (r.status_code = 200 → r.jsonBody = none →
      _process_http_response r = (Except.error PyExc.jsonDecodeError, []))
    ∧ (r.status_code ≠ 200 → ∀ fields e, r.jsonBody = some (JsonValue.obj fields) →
      fields.lookup "error" = some e →
      (_process_http_response r).fst = Except.ok (e, true))
    ∧ (r.status_code ≠ 200 → ∀ fields, r.jsonBody = some (JsonValue.obj fields) →
      fields.lookup "error" = none →
      (_process_http_response r).fst = Except.ok (JsonValue.obj fields, true))
    ∧ (r.status_code ≠ 200 → r.jsonBody = none →
      (_process_http_response r).fst = Except.ok (JsonValue.str r.text, true))
    ∧ (r.status_code ≠ 200 → ∀ s, r.jsonBody = some (JsonValue.str s) →
      (s.splitOn "error").length = 1 →
      (_process_http_response r).fst = Except.ok (JsonValue.str s, true))
    ∧ (r.status_code ≠ 200 → ∀ s, r.jsonBody = some (JsonValue.str s) →
      (s.splitOn "error").length ≠ 1 →
      (_process_http_response r).fst = Except.error PyExc.typeError)
    ∧ (r.status_code ≠ 200 → ∀ xs, r.jsonBody = some (JsonValue.arr xs) →
      xs.any (fun v => match v with
        | JsonValue.str s => s == "error"
        | _ => false) = false →
      (_process_http_response r).fst = Except.ok (JsonValue.arr xs, true))
    ∧ (r.status_code ≠ 200 → ∀ xs, r.jsonBody = some (JsonValue.arr xs) →
      xs.any (fun v => match v with
        | JsonValue.str s => s == "error"
        | _ => false) = true →
      (_process_http_response r).fst = Except.error PyExc.typeError)
    ∧ (r.status_code ≠ 200 → ∀ n, r.jsonBody = some (JsonValue.num n) →
      (_process_http_response r).fst = Except.error PyExc.typeError)
    ∧ (r.status_code ≠ 200 → ∀ b, r.jsonBody = some (JsonValue.bool b) →
      (_process_http_response r).fst = Except.error PyExc.typeError)
    ∧ (r.status_code ≠ 200 → r.jsonBody = some JsonValue.null →
      (_process_http_response r).fst = Except.error PyExc.typeError) := by
  refine ⟨?_, ?_, ?_, ?_, ?_, ?_, ?_, ?_, ?_, ?_, ?_, ?_⟩
  · intro h j hj
    simp [_process_http_response, h, hj]
  · intro h hj
    simp [_process_http_response, h, hj]
  · intro h fields e hj herr
    have hany : fields.any (fun kv => kv.fst == "error") = true := by
      rw [any_key_eq_lookup_isSome, herr]
      rfl
    simp [_process_http_response, h, hj, pyContains, pyIndex, hany, herr]
  · intro h fields hj herr
    have hany : fields.any (fun kv => kv.fst == "error") = false := by
      rw [any_key_eq_lookup_isSome, herr]
      rfl
    simp [_process_http_response, h, hj, pyContains, hany]
  · intro h hj
    simp [_process_http_response, h, hj]
  · intro h s hj hlen
    simp [_process_http_response, h, hj, pyContains, hlen]
  · intro h s hj hlen
    have hb : ((s.splitOn "error").length != 1) = true := bne_iff_ne.mpr hlen
    simp [_process_http_response, h, hj, pyContains, pyIndex, hb]
  · intro h xs hj hany
    simp [_process_http_response, h, hj, pyContains, hany]
  · intro h xs hj hany
    simp [_process_http_response, h, hj, pyContains, pyIndex, hany]
  · intro h n hj
    simp [_process_http_response, h, hj, pyContains]
  · intro h b hj
    simp [_process_http_response, h, hj, pyContains]
  · intro h hj
    simp [_process_http_response, h, hj, pyContains]

/-- C6 witness: at status 500 with body decoding to an object carrying an
`error` entry, the normalizer returns that entry flagged as an error. -/
theorem c6_normalizer_case_analysis_witness :
    (_process_http_response
      { status_code := 500,
        jsonBody := some (JsonValue.obj
          [("error", JsonValue.obj [("message", JsonValue.str "boom")])]),
        text := "ignored" }).fst
      = Except.ok (JsonValue.obj [("message", JsonValue.str "boom")], true) :=
  (c6_normalizer_case_analysis
    { status_code := 500,
      jsonBody := some (JsonValue.obj
        [("error", JsonValue.obj [("message", JsonValue.str "boom")])]),
      text := "ignored" }).2.2.1 (by decide)
    [("error", JsonValue.obj [("message", JsonValue.str "boom")])]
    (JsonValue.obj [("message", JsonValue.str "boom")]) rfl rfl

/-- C10: constructing a `PreloadeResolvedTools` never succeeds — whenever
the flow-loading and tool-resolution preamble completes, the assignment
`self.tools = ...` hits the getter-only `tools` property and raises
`AttributeError`; the getter itself, whose body returns `self.tools`, never
produces a value under any finite recursion budget; hence the module-level
instantiation at import time never yields an object. -/
theorem c10_preloaded_tools_never_constructed :
    (∀ env obj, preloaded_obj env ≠ Except.ok obj)
    ∧ (∀ env tools, env.resolveOutcome = Except.ok tools →
        preloaded_obj env = Except.error PyExc.attributeError)
    ∧ (∀ fuel, tools_getter fuel = none) := by
  refine ⟨?_, ?_, ?_⟩
  · intro env obj h
    unfold preloaded_obj PreloadeResolvedTools.init at h
    cases henv : env.resolveOutcome with
    | error e => rw [henv] at h; cases h
    | ok tools =>
      rw [henv] at h
      simp [pySetAttr_tools, tools_setter] at h
  · intro env tools henv
    unfold preloaded_obj PreloadeResolvedTools.init
    rw [henv]
    simp [pySetAttr_tools, tools_setter]
  · intro fuel
    induction fuel with
    | zero => rfl
    | succ n ih => simpa [tools_getter] using ih

/-- C10 witness: with a preamble that resolves an empty tool list, the
constructor raises `AttributeError`, and the getter yields no value. -/
theorem c10_preloaded_tools_never_constructed_witness :
    preloaded_obj { resolveOutcome := Except.ok [] } = Except.error PyExc.attributeError
    ∧ tools_getter 7 = none :=
  ⟨c10_preloaded_tools_never_constructed.2.1 { resolveOutcome := Except.ok [] } [] rfl,
   c10_preloaded_tools_never_constructed.2.2 7⟩

lemma check_health_events (po : Except PyExc HttpResponse) :
    ∀ x ∈ (check_health po).snd,
      x = Event.healthProbe ∨ ∃ m, x = Event.logWarning m := by
  intro x hx
  cases po with
  | error e =>
    simp [check_health] at hx
    rcases hx with h | h
    · exact Or.inl h
    · exact Or.inr ⟨_, h⟩
  | ok r =>
    by_cases h : r.status_code = 200
    · simp [check_health, h] at hx
      exact Or.inl hx
    · simp [check_health, h] at hx
      rcases hx with h2 | h2
      · exact Or.inl h2
      · exact Or.inr ⟨_, h2⟩

lemma check_health_true_snd (po : Except PyExc HttpResponse)
    (h : (check_health po).fst = true) :
    (check_health po).snd = [Event.healthProbe] := by
  cases po with
  | error e => simp [check_health] at h
  | ok r =>
    by_cases hs : r.status_code = 200
    · simp [check_health, hs]
    · simp [check_health, hs] at h

lemma healthLoop_events (probes : List ProbeStep) :
    ∀ elapsed, ∀ x ∈ (healthLoop probes elapsed).snd,
      x = Event.healthProbe ∨ ∃ m, x = Event.logWarning m := by
  induction probes with
  | nil =>
    intro elapsed x hx
    unfold healthLoop at hx
    by_cases hcond : elapsed / timeUnit < waiting_health_timeout
    · simp [hcond] at hx
    · simp [hcond] at hx
  | cons p rest ih =>
    intro elapsed x hx
    unfold healthLoop at hx
    by_cases hcond : elapsed / timeUnit < waiting_health_timeout
    · rw [if_pos hcond] at hx
      dsimp only at hx
      rcases hch : check_health p.outcome with ⟨b, evs⟩
      rw [hch] at hx
      cases b with
      | true =>
        have := check_health_events p.outcome x
        rw [hch] at this
        exact this hx
      | false =>
        rcases hrec : healthLoop rest (elapsed + p.duration) with ⟨r2, evs2⟩
        rw [hrec] at hx
        simp only [List.mem_append] at hx
        rcases hx with hx | hx
        · have := check_health_events p.outcome x
          rw [hch] at this
          exact this hx
        · have := ih (elapsed + p.duration) x
          rw [hrec] at this
          exact this hx
    · rw [if_neg hcond] at hx
      simp at hx

lemma healthLoop_timeout_of_all_unhealthy (probes : List ProbeStep) :
    ∀ elapsed, (∀ p ∈ probes, (check_health p.outcome).fst = false) →
    waiting_health_timeout * timeUnit ≤ elapsed + totalDuration probes →
    (healthLoop probes elapsed).fst = HealthResult.timeout := by
  induction probes with
  | nil =>
    intro elapsed _ hle
    have hle2 : waiting_health_timeout * timeUnit ≤ elapsed := by
      simpa [totalDuration] using hle
    have h5 : waiting_health_timeout ≤ elapsed / timeUnit :=
      (Nat.le_div_iff_mul_le (by decide : 0 < timeUnit)).mpr hle2
    unfold healthLoop
    rw [if_neg (Nat.not_lt.mpr h5)]
  | cons p rest ih =>
    intro elapsed hall hle
    unfold healthLoop
    by_cases hcond : elapsed / timeUnit < waiting_health_timeout
    · rw [if_pos hcond]
      dsimp only
      have hp : (check_health p.outcome).fst = false :=
        hall p (List.mem_cons_self p rest)
      rcases hch : check_health p.outcome with ⟨b, evs⟩
      rw [hch] at hp
      simp at hp
      subst hp
      dsimp only
      have hrest : ∀ q ∈ rest, (check_health q.outcome).fst = false :=
        fun q hq => hall q (List.mem_cons_of_mem p hq)
      have hle2 : waiting_health_timeout * timeUnit
          ≤ (elapsed + p.duration) + totalDuration rest := by
        simp [totalDuration] at hle
        omega
      exact ih (elapsed + p.duration) hrest hle2
    · rw [if_neg hcond]

lemma healthLoop_first_healthy (p : ProbeStep) (rest : List ProbeStep)
    (h : (check_health p.outcome).fst = true) :
    healthLoop (p :: rest) 0 = (HealthResult.healthy, [Event.healthProbe]) := by
  have hsnd := check_health_true_snd p.outcome h
  unfold healthLoop
  rw [if_pos (by simp [timeUnit, waiting_health_timeout])]
  dsimp only
  rcases hch : check_health p.outcome with ⟨b, evs⟩
  rw [hch] at h hsnd
  simp at h hsnd
  subst h
  subst hsnd
  rfl

lemma process_snd_empty_or_logError (r : HttpResponse) :
    (_process_http_response r).snd = [] ∨
    ∃ m, (_process_http_response r).snd = [Event.logError m] := by
  by_cases hs : r.status_code = 200
  · cases hj : r.jsonBody with
    | none => simp [_process_http_response, hs, hj]
    | some j => simp [_process_http_response, hs, hj]
  · cases hj : r.jsonBody with
    | none => simp [_process_http_response, hs, hj]
    | some j =>
      cases hpc : pyContains j "error" with
      | error e => simp [_process_http_response, hs, hj, hpc]
      | ok b =>
        cases b with
        | false => simp [_process_http_response, hs, hj, hpc]
        | true =>
          cases hpi : pyIndex j "error" with
          | error e => simp [_process_http_response, hs, hj, hpc, hpi]
          | ok sub => simp [_process_http_response, hs, hj, hpc, hpi]

lemma process_success_parsable (code : Nat) (j : JsonValue) (btext : String)
    (hcode : code = 200) :
    _process_http_response { status_code := code, jsonBody := some j, text := btext }
      = (Except.ok (j, false), []) := by
  simp [_process_http_response, hcode]

lemma process_nonsuccess_obj_error (code : Nat)
    (fields : List (String × JsonValue)) (e : JsonValue) (btext : String)
    (hcode : code ≠ 200) (herr : fields.lookup "error" = some e) :
    (_process_http_response
      { status_code := code, jsonBody := some (JsonValue.obj fields), text := btext }).fst
      = Except.ok (e, true) := by
  have hany : fields.any (fun kv => kv.fst == "error") = true := by
    rw [any_key_eq_lookup_isSome, herr]
    rfl
  simp [_process_http_response, hcode, pyContains, pyIndex, hany, herr]

lemma process_error_classify (r : HttpResponse) (e : PyExc)
    (h : (_process_http_response r).fst = Except.error e) :
    e = PyExc.jsonDecodeError ∨ e = PyExc.typeError := by
  by_cases hs : r.status_code = 200
  · cases hj : r.jsonBody with
    | none =>
      simp [_process_http_response, hs, hj] at h
      exact Or.inl h.symm
    | some j => simp [_process_http_response, hs, hj] at h
  · cases hj : r.jsonBody with
    | none => simp [_process_http_response, hs, hj] at h
    | some j =>
      cases j with
      | obj fields =>
        by_cases hl : (fields.lookup "error").isSome
        · obtain ⟨v, hv⟩ := Option.isSome_iff_exists.mp hl
          have hany : fields.any (fun kv => kv.fst == "error") = true := by
            rw [any_key_eq_lookup_isSome, hv]
            rfl
          simp [_process_http_response, hs, hj, pyContains, pyIndex, hany, hv] at h
        · have hn : fields.lookup "error" = none :=
            Option.not_isSome_iff_eq_none.mp hl
          have hany : fields.any (fun kv => kv.fst == "error") = false := by
            rw [any_key_eq_lookup_isSome, hn]
            rfl
          simp [_process_http_response, hs, hj, pyContains, hany] at h
      | arr xs =>
        cases hany : xs.any (fun v => match v with
          | JsonValue.str s => s == "error"
          | _ => false) with
        | false => simp [_process_http_response, hs, hj, pyContains, hany] at h
        | true =>
          simp [_process_http_response, hs, hj, pyContains, pyIndex, hany] at h
          exact Or.inr h.symm
      | str s =>
        cases hb : ((s.splitOn "error").length != 1) with
        | false => simp [_process_http_response, hs, hj, pyContains, hb] at h
        | true =>
          simp [_process_http_response, hs, hj, pyContains, pyIndex, hb] at h
          exact Or.inr h.symm
      | num n =>
        simp [_process_http_response, hs, hj, pyContains] at h
        exact Or.inr h.symm
      | bool b =>
        simp [_process_http_response, hs, hj, pyContains] at h
        exact Or.inr h.symm
      | null =>
        simp [_process_http_response, hs, hj, pyContains] at h
        exact Or.inr h.symm

lemma deserialize_serialize (lr : LineResult) :
    LineResult.deserialize (LineResult.serialize lr) = lr := by
  obtain ⟨o, a, ri, n⟩ := lr
  obtain ⟨st, inp, idx, rid, err⟩ := ri
  cases idx <;> cases rid <;> cases err <;> rfl

/-- C3: if every probe of the trace reports unhealthy and the probes consume
the whole wait budget of `waiting_health_timeout` time units (elapsed time
compared at truncated whole-unit granularity), `exec_line_async` issues no
request to the Execution target and raises `ExecutorServiceUnhealthy` whose
message tells the caller to resubmit; no `LineResult` is returned. -/
theorem c3_unhealthy_budget_raises_without_execution (env : Env)
    (inputs : JsonValue) (index : Option Int) (run_id : Option String)
    (start_time : Nat)
    (hall : ∀ p ∈ env.probes, (check_health p.outcome).fst = false)
    (hdur : waiting_health_timeout * timeUnit ≤ totalDuration env.probes) :
    (exec_line_async env inputs index run_id start_time).fst
      = ExecOutcome.exc (PyExc.executorServiceUnhealthy
          (EXECUTOR_UNHEALTHY_MESSAGE ++ ". Please resubmit your flow and try again."))
    ∧ countEvent Event.executionRequest
        (exec_line_async env inputs index run_id start_time).snd = 0 := by
  have htime : (_ensure_executor_health env.probes).fst = HealthResult.timeout :=
    healthLoop_timeout_of_all_unhealthy env.probes 0 hall (by simpa using hdur)
  have hzero : countEvent Event.executionRequest
      (_ensure_executor_health env.probes).snd = 0 := by
    apply countEvent_eq_zero_of_forall_ne
    intro x hx
    rcases healthLoop_events env.probes 0 x hx with h | ⟨m, h⟩ <;> subst h <;> simp
  unfold exec_line_async
  rcases hh : _ensure_executor_health env.probes with ⟨res, evs⟩
  rw [hh] at htime hzero
  simp at htime
  subst htime
  exact ⟨rfl, hzero⟩

/-- C9: if the very first health probe reports healthy, `exec_line_async`
issues exactly one health probe and exactly one Execution request. -/
theorem c9_first_probe_healthy_one_probe_one_request (env : Env)
    (inputs : JsonValue) (index : Option Int) (run_id : Option String)
    (start_time : Nat) (p : ProbeStep) (rest : List ProbeStep)
    (hprobes : env.probes = p :: rest)
    (hfirst : (check_health p.outcome).fst = true) :
    countEvent Event.healthProbe
      (exec_line_async env inputs index run_id start_time).snd = 1
    ∧ countEvent Event.executionRequest
      (exec_line_async env inputs index run_id start_time).snd = 1 := by
  have hloop : _ensure_executor_health env.probes
      = (HealthResult.healthy, [Event.healthProbe]) := by
    rw [hprobes]
    exact healthLoop_first_healthy p rest hfirst
  unfold exec_line_async
  rw [hloop]
  cases hresp : env.execResponse with
  | error e => simp [countEvent_append, countEvent]
  | ok r =>
    dsimp only
    rcases hpr : _process_http_response r with ⟨pres, evs2⟩
    have hsnd := process_snd_empty_or_logError r
    rw [hpr] at hsnd
    dsimp only at hsnd
    have h0a : countEvent Event.healthProbe evs2 = 0 := by
      rcases hsnd with h | ⟨m, h⟩ <;> subst h <;> simp [countEvent]
    have h0b : countEvent Event.executionRequest evs2 = 0 := by
      rcases hsnd with h | ⟨m, h⟩ <;> subst h <;> simp [countEvent]
    cases pres with
    | error e2 =>
      simp [countEvent, h0a, h0b]
    | ok pl =>
      obtain ⟨payload, flag⟩ := pl
      cases flag with
      | true => simp [countEvent, h0a, h0b]
      | false => simp [countEvent, h0a, h0b]

/-- C1: when the health gate passes and the Execution response has a
non-success status whose body parses to an object with an `error` entry,
the call does not raise: it returns a `LineResult` with empty output, empty
aggregation inputs, empty node run infos, and a run info synthesized from
the recorded start timestamp, the inputs, the index, the run id and the
normalized error payload. -/
theorem c1_error_body_yields_degraded_line_result (env : Env)
    (inputs : JsonValue) (index : Option Int) (run_id : Option String)
    (start_time : Nat) (code : Nat) (fields : List (String × JsonValue))
    (e : JsonValue) (btext : String)
    (hhealth : (_ensure_executor_health env.probes).fst = HealthResult.healthy)
    (hresp : env.execResponse = Except.ok
      { status_code := code, jsonBody := some (JsonValue.obj fields), text := btext })
    (hcode : code ≠ 200)
    (herr : fields.lookup "error" = some e) :
    (exec_line_async env inputs index run_id start_time).fst =
      ExecOutcome.ok
        { output := JsonValue.obj [], aggregation_inputs := JsonValue.obj [],
          run_info := FlowRunInfo.create_with_error start_time inputs index run_id e,
          node_run_infos := JsonValue.obj [] } := by
  have hproc := process_nonsuccess_obj_error code fields e btext hcode herr
  unfold exec_line_async
  rcases hh : _ensure_executor_health env.probes with ⟨res, evs⟩
  rw [hh] at hhealth
  simp at hhealth
  subst hhealth
  rw [hresp]
  dsimp only
  rcases hpr : _process_http_response
    { status_code := code, jsonBody := some (JsonValue.obj fields), text := btext }
    with ⟨pres, evs2⟩
  rw [hpr] at hproc
  dsimp only at hproc
  subst hproc
  rfl

/-- C2: when the health gate passes and the Execution response is a success
status whose body is a well-formed serialized `LineResult`, the call
returns exactly that `LineResult`, unchanged. -/
theorem c2_success_body_round_trip_identity (env : Env) (inputs : JsonValue)
    (index : Option Int) (run_id : Option String) (start_time : Nat)
    (lr : LineResult) (btext : String)
    (hhealth : (_ensure_executor_health env.probes).fst = HealthResult.healthy)
    (hresp : env.execResponse = Except.ok
      { status_code := 200, jsonBody := some (LineResult.serialize lr), text := btext }) :
    (exec_line_async env inputs index run_id start_time).fst = ExecOutcome.ok lr := by
  have hproc := process_success_parsable 200 (LineResult.serialize lr) btext rfl
  unfold exec_line_async
  rcases hh : _ensure_executor_health env.probes with ⟨res, evs⟩
  rw [hh] at hhealth
  simp at hhealth
  subst hhealth
  rw [hresp]
  dsimp only
  rw [hproc]
  dsimp only
  rw [deserialize_serialize]
  rfl

/-- C8: when the health gate passes, `exec_aggregation_async` deserializes
whatever payload the normalizer produced into an `AggregationResult` and
returns it — the error flag is discarded, with no degraded-result branch,
so an error payload is deserialized as if it were a valid result. -/
theorem c8_aggregation_deserializes_regardless_of_error_flag (env : Env)
    (batch_inputs : JsonValue) (aggregation_inputs : JsonValue)
    (run_id : Option String) (r : HttpResponse) (payload : JsonValue) (flag : Bool)
    (hhealth : (_ensure_executor_health env.probes).fst = HealthResult.healthy)
    (hresp : env.aggResponse = Except.ok r)
    (hproc : (_process_http_response r).fst = Except.ok (payload, flag)) :
    (exec_aggregation_async env batch_inputs aggregation_inputs run_id).fst
      = ExecOutcome.ok (AggregationResult.deserialize payload) := by
  unfold exec_aggregation_async
  rcases hh : _ensure_executor_health env.probes with ⟨res, evs⟩
  rw [hh] at hhealth
  simp at hhealth
  subst hhealth
  rw [hresp]
  dsimp only
  rcases hpr : _process_http_response r with ⟨pres, evs2⟩
  rw [hpr] at hproc
  dsimp only at hproc
  subst hproc
  rfl

/-- A healthy single-probe trace whose Execution response has a success
status but a body that is not valid JSON. -/
def healthyProbe : ProbeStep :=
  { outcome := Except.ok { status_code := 200, jsonBody := some JsonValue.null, text := "ok" },
    duration := 0 }

def envSuccessUnparsableBody : Env :=
  { probes := [healthyProbe],
    execResponse := Except.ok { status_code := 200, jsonBody := none, text := "<<<not json>>>" },
    aggResponse := Except.error (PyExc.transportError "unused") }

/-- C4 counterexample: with a passing health gate and a success-status
Execution response whose body is unparsable, `exec_line_async` ends in a
`JSONDecodeError` — an outcome that is neither a returned `LineResult` nor
the fatal health-timeout exception, refuting the claim that no other
outcome is possible. -/
theorem c4_counterexample_json_decode_error_escapes :
    (exec_line_async envSuccessUnparsableBody (JsonValue.obj []) none none 0).fst
      = ExecOutcome.exc PyExc.jsonDecodeError := by
  rfl

/-- C4 amended: every `exec_line_async` call either returns a (structurally
complete) `LineResult`, or raises an exception from a fixed set: the fatal
health-timeout `ExecutorServiceUnhealthy` with its resubmit message, the
transport exception of the Execution request itself, the `JSONDecodeError`
of an unparsable success body, or the `TypeError` escaping error
normalization; in the model a probe trace can also merely be exhausted
(the Python loop would keep probing). -/
theorem c4_amended_every_outcome_classified (env : Env) (inputs : JsonValue)
    (index : Option Int) (run_id : Option String) (start_time : Nat) :
    (∃ lr, (exec_line_async env inputs index run_id start_time).fst
      = ExecOutcome.ok lr)
    ∨ (exec_line_async env inputs index run_id start_time).fst
        = ExecOutcome.exc (PyExc.executorServiceUnhealthy
            (EXECUTOR_UNHEALTHY_MESSAGE ++ ". Please resubmit your flow and try again."))
    ∨ (∃ e, env.execResponse = Except.error e
        ∧ (exec_line_async env inputs index run_id start_time).fst = ExecOutcome.exc e)
    ∨ (exec_line_async env inputs index run_id start_time).fst
        = ExecOutcome.exc PyExc.jsonDecodeError
    ∨ (exec_line_async env inputs index run_id start_time).fst
        = ExecOutcome.exc PyExc.typeError
    ∨ (exec_line_async env inputs index run_id start_time).fst
        = ExecOutcome.traceExhausted := by
  unfold exec_line_async
  rcases hh : _ensure_executor_health env.probes with ⟨res, evs⟩
  cases res with
  | traceExhausted =>
    right; right; right; right; right
    rfl
  | timeout =>
    right; left
    rfl
  | healthy =>
    cases hresp : env.execResponse with
    | error e =>
      right; right; left
      exact ⟨e, rfl, rfl⟩
    | ok r =>
      dsimp only
      rcases hpr : _process_http_response r with ⟨pres, evs2⟩
      cases pres with
      | error e2 =>
        have hcl := process_error_classify r e2 (by rw [hpr])
        rcases hcl with h | h <;> subst h
        · right; right; right; left
          rfl
        · right; right; right; right; left
          rfl
      | ok pl =>
        obtain ⟨payload, flag⟩ := pl
        cases flag with
        | true =>
          left
          exact ⟨_, rfl⟩
        | false =>
          left
          exact ⟨_, rfl⟩

/-- A non-success Execution/Aggregation response carrying a structured
error body. -/
def errorBodyResponse : HttpResponse :=
  { status_code := 500,
    jsonBody := some (JsonValue.obj
      [("error", JsonValue.obj [("message", JsonValue.str "boom")])]),
    text := "body" }

def envErrorBody : Env :=
  { probes := [healthyProbe],
    execResponse := Except.ok errorBodyResponse,
    aggResponse := Except.ok errorBodyResponse }

/-- C1 witness: the degraded `LineResult` produced at status 500 with body
decoding to nested error detail "boom", with the passed correlation keys. -/
theorem c1_error_body_yields_degraded_line_result_witness :
    (exec_line_async envErrorBody (JsonValue.obj [("question", JsonValue.str "q")])
      (some 3) (some "run1") 42).fst
      = ExecOutcome.ok
        { output := JsonValue.obj [], aggregation_inputs := JsonValue.obj [],
          run_info := FlowRunInfo.create_with_error 42
            (JsonValue.obj [("question", JsonValue.str "q")]) (some 3) (some "run1")
            (JsonValue.obj [("message", JsonValue.str "boom")]),
          node_run_infos := JsonValue.obj [] } :=
  c1_error_body_yields_degraded_line_result envErrorBody
    (JsonValue.obj [("question", JsonValue.str "q")]) (some 3) (some "run1") 42 500
    [("error", JsonValue.obj [("message", JsonValue.str "boom")])]
    (JsonValue.obj [("message", JsonValue.str "boom")]) "body"
    rfl rfl (by decide) rfl

def riSample : FlowRunInfo :=
  { start_time := 5,
    inputs := JsonValue.obj [],
    index := some 0,
    run_id := some "r0",
    error := none }

def lrSample : LineResult :=
  { output := JsonValue.obj [("answer", JsonValue.num 7)],
    aggregation_inputs := JsonValue.obj [],
    run_info := riSample,
    node_run_infos := JsonValue.obj [] }

def envSuccessBody : Env :=
  { probes := [healthyProbe],
    execResponse := Except.ok
      { status_code := 200, jsonBody := some (LineResult.serialize lrSample), text := "body" },
    aggResponse := Except.error (PyExc.transportError "unused") }

/-- C2 witness: a success response carrying a serialized `LineResult` is
returned as exactly that `LineResult`. -/
theorem c2_success_body_round_trip_identity_witness :
    (exec_line_async envSuccessBody (JsonValue.obj []) none none 0).fst
      = ExecOutcome.ok lrSample :=
  c2_success_body_round_trip_identity envSuccessBody (JsonValue.obj []) none none 0
    lrSample "body" rfl rfl

def unhealthyProbe : ProbeStep :=
  { outcome := Except.ok { status_code := 503, jsonBody := none, text := "unavailable" },
    duration := timeUnit }

def envAllUnhealthy : Env :=
  { probes := List.replicate 5 unhealthyProbe,
    execResponse := Except.error (PyExc.transportError "unused"),
    aggResponse := Except.error (PyExc.transportError "unused") }

/-- C3 witness: five consecutive 503 probes of one time unit each exhaust
the budget; the call raises the resubmit-instructing exception and issues
no Execution request. -/
theorem c3_unhealthy_budget_raises_without_execution_witness :
    (exec_line_async envAllUnhealthy (JsonValue.obj []) none none 0).fst
      = ExecOutcome.exc (PyExc.executorServiceUnhealthy
          (EXECUTOR_UNHEALTHY_MESSAGE ++ ". Please resubmit your flow and try again."))
    ∧ countEvent Event.executionRequest
        (exec_line_async envAllUnhealthy (JsonValue.obj []) none none 0).snd = 0 :=
  c3_unhealthy_budget_raises_without_execution envAllUnhealthy (JsonValue.obj [])
    none none 0
    (by
      intro p hp
      have hmem : p ∈ List.replicate 5 unhealthyProbe := hp
      rw [List.eq_of_mem_replicate hmem]
      rfl)
    (by decide)

/-- C8 witness: the aggregation call deserializes the normalized error
payload (flagged `true` by the normalizer) as if it were a valid result. -/
theorem c8_aggregation_deserializes_regardless_of_error_flag_witness :
    (exec_aggregation_async envErrorBody (JsonValue.obj []) (JsonValue.obj [])
      (some "run1")).fst
      = ExecOutcome.ok (AggregationResult.deserialize
          (JsonValue.obj [("message", JsonValue.str "boom")])) :=
  c8_aggregation_deserializes_regardless_of_error_flag envErrorBody
    (JsonValue.obj []) (JsonValue.obj []) (some "run1") errorBodyResponse
    (JsonValue.obj [("message", JsonValue.str "boom")]) true rfl rfl rfl

/-- C9 witness: with an immediately healthy probe, one probe and one
Execution request are issued. -/
theorem c9_first_probe_healthy_one_probe_one_request_witness :
    countEvent Event.healthProbe
      (exec_line_async envErrorBody (JsonValue.obj []) none none 0).snd = 1
    ∧ countEvent Event.executionRequest
      (exec_line_async envErrorBody (JsonValue.obj []) none none 0).snd = 1 :=
  c9_first_probe_healthy_one_probe_one_request envErrorBody (JsonValue.obj [])
    none none 0 healthyProbe [] rfl rfl
